import Mathlib

/-!
Verification of the cross-pool arbitrage pipeline of solana-amm-arb-cli.

Shallow embedding conventions:
* Machine integers (u64/u128/i64/i128/u32/u8) are modelled as Nat/Int.  The
  u128 intermediates of `calculate_swap_output_raw` cannot overflow for u64
  inputs (largest product is below 2^128), so plain Nat arithmetic models
  them; the final `as u64` cast is modelled by an explicit `% 2 ^ 64`, and
  the `as i64` cast by an explicit two's-complement wrap.
* `f64` quantities are modelled as rationals (exact arithmetic; IEEE
  rounding is abstracted away).  The float-to-u64 `as` cast saturates at the
  ends of the u64 range and truncates toward zero, which `f64_as_u64` mirrors.
* Solana `Pubkey` values are modelled as their base58 strings; the only
  operation the evaluated code performs on them is equality.
* RPC results are passed in as explicit arguments (account existence flags,
  fetched values, call outcomes), so that each embedded function is the pure
  decision logic of the corresponding Rust function.
-/

/-- Fee denominator `UNITS_PER_TRADE_FEE_RATE` from src/arbitrage.rs. -/
def UNITS_PER_TRADE_FEE_RATE : Nat := 1000000

/-- The wrapped-SOL mint constant `SOL_MINT` from src/arbitrage.rs. -/
def SOL_MINT : String := "So11111111111111111111111111111111111111112"

/-- Shallow embedding of `calculate_swap_output_raw` (src/arbitrage.rs:84-98).
The Rust body computes, in u128: `fees = amount_in * trade_fee_rate /
UNITS_PER_TRADE_FEE_RATE`, `net_in = amount_in - fees`, `amount_out =
net_in * reserve_out / (reserve_in + net_in)`, and returns `amount_out as
u64`.  For u64 inputs the products stay under 2^128 and (for
`trade_fee_rate <= 1_000_000`) the subtraction never underflows, so Nat
arithmetic is exact; the trailing `% 2 ^ 64` is the `as u64` cast. -/
def calculate_swap_output_raw (amount_in reserve_in reserve_out trade_fee_rate : Nat) : Nat :=
  let fees : Nat := amount_in * trade_fee_rate / UNITS_PER_TRADE_FEE_RATE
  let net_in : Nat := amount_in - fees
  let numerator : Nat := net_in * reserve_out
  let denominator : Nat := reserve_in + net_in
  let amount_out : Nat := numerator / denominator
  amount_out % 2 ^ 64

/-- The quotient of one constant-product leg never exceeds the output-side
reserve. -/
theorem swap_quotient_le (net reserveI reserveO : Nat) :
    net * reserveO / (reserveI + net) ≤ reserveO := by
  rcases Nat.eq_zero_or_pos (reserveI + net) with h | h
  · simp [h, Nat.eq_zero_of_add_eq_zero_left h]
  · exact Nat.div_le_of_le_mul' (Nat.mul_le_mul_right _ (Nat.le_add_left _ _))

/-- For a u64-sized output reserve, the final `as u64` cast of
`calculate_swap_output_raw` is the identity, so the function equals the pure
floor formula. -/
theorem calculate_swap_output_raw_eq (a reserveI reserveO f : Nat)
    (hO : reserveO < 2 ^ 64) :
    calculate_swap_output_raw a reserveI reserveO f =
      (a - a * f / 1000000) * reserveO / (reserveI + (a - a * f / 1000000)) := by
  unfold calculate_swap_output_raw UNITS_PER_TRADE_FEE_RATE
  exact Nat.mod_eq_of_lt (lt_of_le_of_lt (swap_quotient_le _ _ _) hO)

/-- The post-fee input `amount_in - amount_in * f / 1_000_000` is
monotonically non-decreasing in `amount_in` whenever `f <= 1_000_000`. -/
theorem net_in_mono (a1 a2 f : Nat) (hf : f ≤ 1000000) (h : a1 ≤ a2) :
    a1 - a1 * f / 1000000 ≤ a2 - a2 * f / 1000000 := by
  have hsplit : a2 * f = a1 * f + (a2 - a1) * f := by
    rw [← Nat.add_mul]
    congr 1
    omega
  have hstep : a2 * f ≤ a1 * f + 1000000 * (a2 - a1) := by
    rw [hsplit, Nat.mul_comm 1000000 (a2 - a1)]
    exact Nat.add_le_add_left (Nat.mul_le_mul_left _ hf) _
  have key : a2 * f / 1000000 ≤ a1 * f / 1000000 + (a2 - a1) :=
    calc a2 * f / 1000000 ≤ (a1 * f + 1000000 * (a2 - a1)) / 1000000 :=
          Nat.div_le_div_right hstep
      _ = a1 * f / 1000000 + (a2 - a1) :=
          @Nat.add_mul_div_left (a1 * f) (a2 - a1) 1000000 (by norm_num)
  have hb1 : a1 * f / 1000000 ≤ a1 :=
    Nat.div_le_of_le_mul' (by rw [Nat.mul_comm]; exact Nat.mul_le_mul_right _ hf)
  have hb2 : a2 * f / 1000000 ≤ a2 :=
    Nat.div_le_of_le_mul' (by rw [Nat.mul_comm]; exact Nat.mul_le_mul_right _ hf)
  omega

/-- Cross-multiplied comparison implies comparison of Nat floor quotients. -/
theorem nat_div_le_div_cross (a b c d : Nat) (hb : 0 < b) (hd : 0 < d)
    (h : a * d ≤ c * b) : a / b ≤ c / d := by
  rw [Nat.le_div_iff_mul_le hd]
  calc a / b * d ≤ a * d / b := by
        rw [Nat.le_div_iff_mul_le hb]
        calc a / b * d * b = a / b * b * d := by ring
          _ ≤ a * d := Nat.mul_le_mul_right _ (Nat.div_mul_le_self a b)
    _ ≤ c * b / b := Nat.div_le_div_right h
    _ = c := Nat.mul_div_cancel _ hb

/-- The single-leg output `n * reserveO / (reserveI + n)` is monotonically
non-decreasing in the net input `n` when the input-side reserve is positive. -/
theorem swap_ratio_mono (reserveI reserveO n1 n2 : Nat) (hI : 0 < reserveI)
    (h : n1 ≤ n2) :
    n1 * reserveO / (reserveI + n1) ≤ n2 * reserveO / (reserveI + n2) := by
  apply nat_div_le_div_cross _ _ _ _ (by omega) (by omega)
  calc n1 * reserveO * (reserveI + n2)
      = n1 * reserveO * reserveI + n1 * reserveO * n2 := by ring
    _ ≤ n2 * reserveO * reserveI + n2 * reserveO * n1 := by
        refine Nat.add_le_add (Nat.mul_le_mul_right _ (Nat.mul_le_mul_right _ h)) ?_
        exact Nat.le_of_eq (by ring)
    _ = n2 * reserveO * (reserveI + n1) := by ring

/-- Claim C1: for every `amount_in`, `reserve_in > 0`, `reserve_out` and
`fee_rate_ppm` in `[0, 1_000_000)` (all u64 values),
`calculate_swap_output_raw` equals
`floor(net_in * reserve_out / (reserve_in + net_in))` with
`net_in = amount_in - floor(amount_in * fee_rate_ppm / 1_000_000)`, with
truncating division at each step; in particular
`calculate_swap_output_raw 10_000 1_000_000 2_000_000 2_500 = 19_752`. -/
theorem swap_output_matches_formula (amount_in reserve_in reserve_out fee_rate_ppm : Nat)
    (hrin : 0 < reserve_in) (hain : amount_in < 2 ^ 64)
    (hrout : reserve_out < 2 ^ 64) (hfee : fee_rate_ppm < 1000000) :
    calculate_swap_output_raw amount_in reserve_in reserve_out fee_rate_ppm =
      (amount_in - amount_in * fee_rate_ppm / 1000000) * reserve_out /
        (reserve_in + (amount_in - amount_in * fee_rate_ppm / 1000000)) ∧
    calculate_swap_output_raw 10000 1000000 2000000 2500 = 19752 :=
  ⟨calculate_swap_output_raw_eq _ _ _ _ hrout, by decide⟩

/-- Witness for C1 at the spec's worked example. -/
theorem swap_output_matches_formula_witness :
    0 < 1000000 ∧ 10000 < 2 ^ 64 ∧ 2000000 < 2 ^ 64 ∧ 2500 < 1000000 ∧
    (calculate_swap_output_raw 10000 1000000 2000000 2500 =
      (10000 - 10000 * 2500 / 1000000) * 2000000 /
        (1000000 + (10000 - 10000 * 2500 / 1000000)) ∧
    calculate_swap_output_raw 10000 1000000 2000000 2500 = 19752) :=
  ⟨by decide, by decide, by decide, by decide,
   swap_output_matches_formula 10000 1000000 2000000 2500
     (by decide) (by decide) (by decide) (by decide)⟩

/-- Claim C4: for fixed `reserve_in > 0`, `reserve_out > 0` and
`fee_rate_ppm` in `[0, 1_000_000)` (u64 values), `calculate_swap_output_raw`
is monotonically non-decreasing in `amount_in`. -/
theorem swap_output_monotone_in_amount_in (reserve_in reserve_out fee_rate_ppm a1 a2 : Nat)
    (hrin : 0 < reserve_in) (hrout0 : 0 < reserve_out) (hrout : reserve_out < 2 ^ 64)
    (hfee : fee_rate_ppm < 1000000) (h12 : a1 ≤ a2) :
    calculate_swap_output_raw a1 reserve_in reserve_out fee_rate_ppm ≤
      calculate_swap_output_raw a2 reserve_in reserve_out fee_rate_ppm := by
  rw [calculate_swap_output_raw_eq _ _ _ _ hrout,
    calculate_swap_output_raw_eq _ _ _ _ hrout]
  exact swap_ratio_mono _ _ _ _ hrin (net_in_mono _ _ _ (Nat.le_of_lt hfee) h12)

/-- Witness for C4 at a concrete pool and two concrete input amounts. -/
theorem swap_output_monotone_in_amount_in_witness :
    0 < 1000000 ∧ 0 < 2000000 ∧ 2000000 < 2 ^ 64 ∧ 2500 < 1000000 ∧ 5000 ≤ 10000 ∧
    calculate_swap_output_raw 5000 1000000 2000000 2500 ≤
      calculate_swap_output_raw 10000 1000000 2000000 2500 :=
  ⟨by decide, by decide, by decide, by decide, by decide,
   swap_output_monotone_in_amount_in 1000000 2000000 2500 5000 10000
     (by decide) (by decide) (by decide) (by decide) (by decide)⟩

/-- Claim C10 (implicit): for u64 inputs with `reserve_in > 0` and
`trade_fee_rate <= 1_000_000`, the swap output is at most `reserve_out`,
and every partial operation in the body is within range: the fee never
exceeds the input (no u128 underflow), the divisor is nonzero, both u128
products fit in 2^128, and the final quotient fits in u64 (the cast does not
truncate). -/
theorem swap_output_bounded_and_total (amount_in reserve_in reserve_out trade_fee_rate : Nat)
    (hain : amount_in < 2 ^ 64) (hrin : 0 < reserve_in)
    (hrout : reserve_out < 2 ^ 64) (hfee : trade_fee_rate ≤ 1000000) :
    calculate_swap_output_raw amount_in reserve_in reserve_out trade_fee_rate ≤ reserve_out ∧
    amount_in * trade_fee_rate / 1000000 ≤ amount_in ∧
    0 < reserve_in + (amount_in - amount_in * trade_fee_rate / 1000000) ∧
    amount_in * trade_fee_rate < 2 ^ 128 ∧
    (amount_in - amount_in * trade_fee_rate / 1000000) * reserve_out < 2 ^ 128 ∧
    (amount_in - amount_in * trade_fee_rate / 1000000) * reserve_out /
        (reserve_in + (amount_in - amount_in * trade_fee_rate / 1000000)) < 2 ^ 64 := by
  have hfees : amount_in * trade_fee_rate / 1000000 ≤ amount_in :=
    Nat.div_le_of_le_mul' (by rw [Nat.mul_comm]; exact Nat.mul_le_mul_right _ hfee)
  have hnet : amount_in - amount_in * trade_fee_rate / 1000000 ≤ amount_in := Nat.sub_le _ _
  have hq : (amount_in - amount_in * trade_fee_rate / 1000000) * reserve_out /
      (reserve_in + (amount_in - amount_in * trade_fee_rate / 1000000)) ≤ reserve_out :=
    swap_quotient_le _ _ _
  refine ⟨?_, hfees, by omega, ?_, ?_, lt_of_le_of_lt hq hrout⟩
  · rw [calculate_swap_output_raw_eq _ _ _ _ hrout]
    exact hq
  · have h1 : amount_in * trade_fee_rate ≤ (2 ^ 64 - 1) * 1000000 :=
      Nat.mul_le_mul (by omega) hfee
    have h2 : (2 ^ 64 - 1) * 1000000 < 2 ^ 128 := by norm_num
    omega
  · have h1 : (amount_in - amount_in * trade_fee_rate / 1000000) * reserve_out ≤
        (2 ^ 64 - 1) * (2 ^ 64 - 1) := Nat.mul_le_mul (by omega) (by omega)
    have h2 : (2 ^ 64 - 1) * (2 ^ 64 - 1) < 2 ^ 128 := by norm_num
    omega

/-- Witness for C10 at a concrete u64 input tuple. -/
theorem swap_output_bounded_and_total_witness :
    10000 < 2 ^ 64 ∧ 0 < 1000000 ∧ 2000000 < 2 ^ 64 ∧ 2500 ≤ 1000000 ∧
    (calculate_swap_output_raw 10000 1000000 2000000 2500 ≤ 2000000 ∧
    10000 * 2500 / 1000000 ≤ 10000 ∧
    0 < 1000000 + (10000 - 10000 * 2500 / 1000000) ∧
    10000 * 2500 < 2 ^ 128 ∧
    (10000 - 10000 * 2500 / 1000000) * 2000000 < 2 ^ 128 ∧
    (10000 - 10000 * 2500 / 1000000) * 2000000 /
        (1000000 + (10000 - 10000 * 2500 / 1000000)) < 2 ^ 64) :=
  ⟨by decide, by decide, by decide, by decide,
   swap_output_bounded_and_total 10000 1000000 2000000 2500
     (by decide) (by decide) (by decide) (by decide)⟩

/-- Shallow embedding of the `PoolValues` record (src/pool.rs:18-32); mints
are base58 strings, u64/u8 fields are Nat. -/
structure PoolValues where
  mint0 : String
  mint1 : String
  vault_amount0 : Nat
  vault_amount1 : Nat
  protocol_fees_token0 : Nat
  protocol_fees_token1 : Nat
  fund_fees_token0 : Nat
  fund_fees_token1 : Nat
  reserve0 : Nat
  reserve1 : Nat
  token0_decimals : Nat
  token1_decimals : Nat
  trade_fee_rate : Nat
deriving DecidableEq

/-- Shallow embedding of `PoolValues::normalize_pool_values`
(src/pool.rs:106-125): the in-place mutation is modelled functionally; when
`mint0` differs from the target the record is rebuilt with the two sides of
every paired field exchanged and `trade_fee_rate` kept, otherwise it is
returned unchanged.  The function is total: it never fails, whether or not
the pool contains the target mint. -/
def normalize_pool_values (p : PoolValues) (first_mint : String) : PoolValues :=
  if p.mint0 ≠ first_mint then
    { mint0 := p.mint1
      mint1 := p.mint0
      vault_amount0 := p.vault_amount1
      vault_amount1 := p.vault_amount0
      protocol_fees_token0 := p.protocol_fees_token1
      protocol_fees_token1 := p.protocol_fees_token0
      fund_fees_token0 := p.fund_fees_token1
      fund_fees_token1 := p.fund_fees_token0
      reserve0 := p.reserve1
      reserve1 := p.reserve0
      token0_decimals := p.token1_decimals
      token1_decimals := p.token0_decimals
      trade_fee_rate := p.trade_fee_rate }
  else
    p

/-- Shallow embedding of the decision core of `compute_mints`
(src/cli.rs:484-512): the two pools' mint pairs are fetched over RPC and
then compared; here the four fetched mints are the arguments.  The pair is
accepted when it matches directly or crosswise, otherwise the function bails
with the "Incompatible pools" error. -/
def compute_mints (a0 a1 b0 b1 : String) : Except String (String × String) :=
  if a0 = b0 ∧ a1 = b1 then Except.ok (a0, a1)
  else if a0 = b1 ∧ a1 = b0 then Except.ok (a0, a1)
  else Except.error "Incompatible pools"

/-- A pool record used by the C7 counterexample, with pairwise distinct
field values so that a swap is visible on every field. -/
def c7Pool : PoolValues :=
  { mint0 := "MintX"
    mint1 := "MintY"
    vault_amount0 := 1
    vault_amount1 := 2
    protocol_fees_token0 := 3
    protocol_fees_token1 := 4
    fund_fees_token0 := 5
    fund_fees_token1 := 6
    reserve0 := 7
    reserve1 := 8
    token0_decimals := 9
    token1_decimals := 10
    trade_fee_rate := 11 }

/-- Counterexample to claim C7 as stated: normalizing toward one mint of the
pair (here `mint0`, a no-op) and then toward the other (`mint1`, a swap)
yields the side-swapped record, not the original. -/
theorem normalize_roundtrip_counterexample :
    normalize_pool_values (normalize_pool_values c7Pool c7Pool.mint0) c7Pool.mint1 ≠ c7Pool ∧
    (normalize_pool_values (normalize_pool_values c7Pool c7Pool.mint0) c7Pool.mint1).reserve0 =
      c7Pool.reserve1 := by
  decide

/-- Claim C7 as amended: normalization is a field-preserving no-op when
`mint0` already equals the target; the round trip that first targets `mint1`
and then targets `mint0` returns the original record; and whenever the
target differs from `mint0` all paired fields are exchanged together, with
`trade_fee_rate` unchanged. -/
theorem normalize_noop_and_roundtrip (p : PoolValues) (t : String) :
    (p.mint0 = t → normalize_pool_values p t = p) ∧
    normalize_pool_values (normalize_pool_values p p.mint1) p.mint0 = p ∧
    (p.mint0 ≠ t →
      (normalize_pool_values p t).mint0 = p.mint1 ∧
      (normalize_pool_values p t).mint1 = p.mint0 ∧
      (normalize_pool_values p t).vault_amount0 = p.vault_amount1 ∧
      (normalize_pool_values p t).vault_amount1 = p.vault_amount0 ∧
      (normalize_pool_values p t).protocol_fees_token0 = p.protocol_fees_token1 ∧
      (normalize_pool_values p t).protocol_fees_token1 = p.protocol_fees_token0 ∧
      (normalize_pool_values p t).fund_fees_token0 = p.fund_fees_token1 ∧
      (normalize_pool_values p t).fund_fees_token1 = p.fund_fees_token0 ∧
      (normalize_pool_values p t).reserve0 = p.reserve1 ∧
      (normalize_pool_values p t).reserve1 = p.reserve0 ∧
      (normalize_pool_values p t).token0_decimals = p.token1_decimals ∧
      (normalize_pool_values p t).token1_decimals = p.token0_decimals ∧
      (normalize_pool_values p t).trade_fee_rate = p.trade_fee_rate) := by
  refine ⟨fun h => by simp [normalize_pool_values, h], ?_, fun h => by
    simp [normalize_pool_values, h]⟩
  by_cases h : p.mint0 = p.mint1
  · simp [normalize_pool_values, h]
  · simp [normalize_pool_values, h, Ne.symm h]

/-- Rust `as u64` applied to an `f64` value (modelled as a rational):
truncation toward zero with saturation to the u64 range. -/
def f64_as_u64 (q : Rat) : Nat :=
  min (Int.fdiv q.num q.den).toNat (2 ^ 64 - 1)

/-- Rust `as i64` applied to an `i128` value: two's-complement wrap to the
low 64 bits. -/
def i128_as_i64 (x : Int) : Int :=
  (x + 2 ^ 63) % 2 ^ 64 - 2 ^ 63

/-- Compute-unit estimate `ESTIMATED_COMPUTE_UNITS` from src/arbitrage.rs. -/
def ESTIMATED_COMPUTE_UNITS : Nat := 100000

/-- `LAMPORTS_PER_SOL` from src/arbitrage.rs. -/
def LAMPORTS_PER_SOL : Nat := 1000000000

/-- `MICRO_LAMPORTS_PER_LAMPORTS` from src/arbitrage.rs. -/
def MICRO_LAMPORTS_PER_LAMPORTS : Nat := 1000000

/-- Shallow embedding of the `Arbitrage` record (src/arbitrage.rs:11-25);
`f64` fields are rationals, raw u64/i64 fields are Nat/Int, and `pnl` is the
explicit `Option` of the source. -/
structure Arbitrage where
  amount_in : Rat
  amount_in_raw : Nat
  amount_out_1 : Rat
  amount_out_1_raw : Nat
  amount_out_2 : Rat
  amount_out_2_raw : Nat
  gross_profit : Rat
  gross_profit_raw : Int
  total_fees : Rat
  total_fees_raw : Nat
  rent : Rat
  rent_raw : Nat
  pnl : Option Rat
deriving DecidableEq

/-- Shallow embedding of `calculate_pnl` (src/arbitrage.rs:27-81).  Float
arithmetic is exact rational arithmetic here; the float-to-u64 cast of the
scaled `amount_in` uses `f64_as_u64`, and the `i128 -> i64` cast of the raw
gross profit uses `i128_as_i64`.  The u64 sum and product in
`total_fees_raw` are modelled without wrap (for realistic fee inputs they
stay far below 2^64). -/
def calculate_pnl (amount_in : Rat) (pool_in pool_out : PoolValues)
    (rent_raw priority_fee : Nat) : Arbitrage :=
  let total_fees_raw : Nat :=
    rent_raw + priority_fee * ESTIMATED_COMPUTE_UNITS / MICRO_LAMPORTS_PER_LAMPORTS
  let amount_in_raw : Nat := f64_as_u64 (amount_in * 10 ^ pool_in.token0_decimals)
  let amount_out_raw_1 : Nat :=
    calculate_swap_output_raw amount_in_raw pool_in.reserve0 pool_in.reserve1
      pool_in.trade_fee_rate
  let amount_out_raw_2 : Nat :=
    calculate_swap_output_raw amount_out_raw_1 pool_out.reserve1 pool_out.reserve0
      pool_out.trade_fee_rate
  let gross_profit_raw : Int := i128_as_i64 ((amount_out_raw_2 : Int) - (amount_in_raw : Int))
  let total_fees : Rat := (total_fees_raw : Rat) / (LAMPORTS_PER_SOL : Rat)
  let amount_out_1 : Rat := (amount_out_raw_1 : Rat) / 10 ^ pool_in.token1_decimals
  let amount_out_2 : Rat := (amount_out_raw_2 : Rat) / 10 ^ pool_out.token0_decimals
  let gross_profit : Rat := (gross_profit_raw : Rat) / 10 ^ pool_out.token0_decimals
  let rent : Rat := (rent_raw : Rat) / (LAMPORTS_PER_SOL : Rat)
  let pnl : Option Rat :=
    if pool_out.mint0 = SOL_MINT then some (gross_profit - total_fees) else none
  { amount_in := amount_in
    amount_in_raw := amount_in_raw
    amount_out_1 := amount_out_1
    amount_out_1_raw := amount_out_raw_1
    amount_out_2 := amount_out_2
    amount_out_2_raw := amount_out_raw_2
    gross_profit := gross_profit
    gross_profit_raw := gross_profit_raw
    total_fees := total_fees
    total_fees_raw := total_fees_raw
    rent := rent
    rent_raw := rent_raw
    pnl := pnl }

/-- Claim C5: the quote's `pnl` field is `some (gross_profit - total_fees)`
exactly when the second pool's normalized output mint (`pool_out.mint0`,
the token the round trip ends in) is the native SOL mint that the costs are
denominated in, and `none` otherwise — never zero, never an error. -/
theorem calculate_pnl_option_iff (amount_in : Rat) (pool_in pool_out : PoolValues)
    (rent_raw priority_fee : Nat) :
    (calculate_pnl amount_in pool_in pool_out rent_raw priority_fee).pnl =
      (if pool_out.mint0 = SOL_MINT then
        some ((calculate_pnl amount_in pool_in pool_out rent_raw priority_fee).gross_profit -
          (calculate_pnl amount_in pool_in pool_out rent_raw priority_fee).total_fees)
       else none) := by
  by_cases h : pool_out.mint0 = SOL_MINT <;> simp [calculate_pnl, h]

/-- Pool A of the C6 counterexample: it trades the pair MintX/MintY. -/
def c6PoolA : PoolValues :=
  { mint0 := "MintX"
    mint1 := "MintY"
    vault_amount0 := 1000
    vault_amount1 := 2000
    protocol_fees_token0 := 0
    protocol_fees_token1 := 0
    fund_fees_token0 := 0
    fund_fees_token1 := 0
    reserve0 := 1000
    reserve1 := 2000
    token0_decimals := 0
    token1_decimals := 0
    trade_fee_rate := 0 }

/-- Pool B of the C6 counterexample: same pair MintX/MintY, other reserves. -/
def c6PoolB : PoolValues :=
  { mint0 := "MintX"
    mint1 := "MintY"
    vault_amount0 := 2000
    vault_amount1 := 1000
    protocol_fees_token0 := 0
    protocol_fees_token1 := 0
    fund_fees_token0 := 0
    fund_fees_token1 := 0
    reserve0 := 2000
    reserve1 := 1000
    token0_decimals := 0
    token1_decimals := 0
    trade_fee_rate := 0 }

set_option maxRecDepth 8192

/-- Counterexample to claim C6 as stated: with both pools trading the pair
MintX/MintY and the configured input mint MintZ contained in neither pool,
no IncompatiblePools condition arises anywhere: the config-time check
accepts the pools (it only compares the two pools with each other), the
run-time normalization silently swaps each pool (its result still does not
contain MintZ as mint0), and the arbitrage quote is then computed, with a
definite second-leg output. -/
theorem incompatible_pools_counterexample :
    compute_mints "MintX" "MintY" "MintX" "MintY" = Except.ok ("MintX", "MintY") ∧
    (normalize_pool_values c6PoolA "MintZ").mint0 = "MintY" ∧
    normalize_pool_values c6PoolA "MintZ" ≠ c6PoolA ∧
    (calculate_pnl 1000 (normalize_pool_values c6PoolA "MintZ")
        (normalize_pool_values c6PoolB "MintZ") 0 0).amount_in_raw = 1000 ∧
    (calculate_pnl 1000 (normalize_pool_values c6PoolA "MintZ")
        (normalize_pool_values c6PoolB "MintZ") 0 0).amount_out_2_raw = 142 := by
  have hf : f64_as_u64 ((1000 : Rat) * 10 ^ (0 : Nat)) = 1000 := by
    norm_num [f64_as_u64]
    decide
  refine ⟨by rfl, by decide, by decide, ?_, ?_⟩
  · show f64_as_u64 ((1000 : Rat) * 10 ^ (0 : Nat)) = 1000
    exact hf
  · show calculate_swap_output_raw
        (calculate_swap_output_raw (f64_as_u64 ((1000 : Rat) * 10 ^ (0 : Nat))) 2000 1000 0)
        2000 1000 0 = 142
    rw [hf]
    decide

/-- Claim C6 as amended: the "Incompatible pools" condition lives in the
config-time helper `compute_mints` and fires exactly when the two pools'
ordered mint pairs match neither directly nor crosswise — it never consults
the configured input mint — while the run pipeline's `normalize_pool_values`
never fails: whenever `mint0` differs from the target (even for a pool that
does not contain the target at all) it silently swaps the two sides, and
quotes are computed afterwards unconditionally. -/
theorem compute_mints_and_normalize_spec (a0 a1 b0 b1 : String)
    (p : PoolValues) (t : String) :
    ((∃ m, compute_mints a0 a1 b0 b1 = Except.ok m) ↔
      ((a0 = b0 ∧ a1 = b1) ∨ (a0 = b1 ∧ a1 = b0))) ∧
    ((compute_mints a0 a1 b0 b1 = Except.error "Incompatible pools") ↔
      ¬ ((a0 = b0 ∧ a1 = b1) ∨ (a0 = b1 ∧ a1 = b0))) ∧
    (p.mint0 ≠ t →
      (normalize_pool_values p t).mint0 = p.mint1 ∧
      (normalize_pool_values p t).reserve0 = p.reserve1 ∧
      (normalize_pool_values p t).reserve1 = p.reserve0) := by
  refine ⟨?_, ?_, fun h => by simp [normalize_pool_values, h]⟩ <;>
  · by_cases h1 : a0 = b0 ∧ a1 = b1
    · simp [compute_mints, h1]
    · by_cases h2 : a0 = b1 ∧ a1 = b0
      · simp [compute_mints, h1, h2]
      · simp [compute_mints, h1, h2]

/-- Shallow embedding of `choose_direction` (src/main.rs:109-148).  The two
`PoolData` arguments are opaque here (the function only forwards them), so
they are a type parameter; the labels are the literal strings of the source.
`unwrap()` on a pnl that the guard has checked to be present is modelled by
`Option.getD 0`. -/
def choose_direction {A : Type} (arb_a_b arb_b_a : Arbitrage) (pool_a pool_b : A)
    (vals_a vals_b : PoolValues) (price_a price_b : Rat) :
    Arbitrage × String × String × A × A × PoolValues × PoolValues × Rat × Rat :=
  if arb_a_b.pnl.isSome && arb_b_a.pnl.isSome then
    if arb_a_b.pnl.getD 0 > arb_b_a.pnl.getD 0 then
      (arb_a_b, "PoolA", "PoolB", pool_a, pool_b, vals_a, vals_b, price_a, price_b)
    else
      (arb_b_a, "PoolB", "PoolA", pool_b, pool_a, vals_b, vals_a, price_b, price_a)
  else if arb_a_b.gross_profit > arb_b_a.gross_profit then
    (arb_a_b, "PoolA", "PoolB", pool_a, pool_b, vals_a, vals_b, price_a, price_b)
  else
    (arb_b_a, "PoolB", "PoolA", pool_b, pool_a, vals_b, vals_a, price_b, price_a)

/-- C2 counterexample data: a first-evaluated quote with no pnl but larger
gross profit. -/
def c2QuoteA : Arbitrage :=
  { amount_in := 0, amount_in_raw := 0, amount_out_1 := 0, amount_out_1_raw := 0,
    amount_out_2 := 0, amount_out_2_raw := 0, gross_profit := 10, gross_profit_raw := 0,
    total_fees := 0, total_fees_raw := 0, rent := 0, rent_raw := 0, pnl := none }

/-- C2 counterexample data: a second-evaluated quote with a defined pnl and
smaller gross profit. -/
def c2QuoteB : Arbitrage :=
  { amount_in := 0, amount_in_raw := 0, amount_out_1 := 0, amount_out_1_raw := 0,
    amount_out_2 := 0, amount_out_2_raw := 0, gross_profit := 1, gross_profit_raw := 0,
    total_fees := 0, total_fees_raw := 0, rent := 0, rent_raw := 0, pnl := some 5 }

/-- C2 counterexample data: a quote with a defined pnl, compared against
itself to exhibit the tie behaviour. -/
def c2QuoteTie : Arbitrage :=
  { amount_in := 0, amount_in_raw := 0, amount_out_1 := 0, amount_out_1_raw := 0,
    amount_out_2 := 0, amount_out_2_raw := 0, gross_profit := 1, gross_profit_raw := 0,
    total_fees := 0, total_fees_raw := 0, rent := 0, rent_raw := 0, pnl := some 1 }

/-- A pool-values record for instantiating `choose_direction` arguments in
the C2 counterexample. -/
def c2Vals : PoolValues :=
  { mint0 := "MintX", mint1 := "MintY", vault_amount0 := 0, vault_amount1 := 0,
    protocol_fees_token0 := 0, protocol_fees_token1 := 0, fund_fees_token0 := 0,
    fund_fees_token1 := 0, reserve0 := 0, reserve1 := 0, token0_decimals := 0,
    token1_decimals := 0, trade_fee_rate := 0 }

/-- Counterexample to claim C2 as stated: (1) with exactly one quote's pnl
defined (the second), the code does not prefer the defined one — it falls
back to the gross-profit comparison and picks the first-evaluated quote;
(2) with both pnl values defined and equal (a tie), the code keeps the
second-evaluated direction, not the first. -/
theorem choose_direction_counterexample :
    (c2QuoteA.pnl.isSome = false ∧ c2QuoteB.pnl.isSome = true ∧
      (choose_direction c2QuoteA c2QuoteB 0 1 c2Vals c2Vals 0 0).2.1 = "PoolA") ∧
    (c2QuoteTie.pnl = some 1 ∧
      (choose_direction c2QuoteTie c2QuoteTie 0 1 c2Vals c2Vals 0 0).2.1 = "PoolB") := by
  refine ⟨⟨by decide, by decide, ?_⟩, by decide, ?_⟩ <;> rfl

/-- Claim C2 as amended: the first-evaluated direction is chosen iff either
both pnl values are defined and the first is strictly greater, or not both
are defined (none, or exactly one — the lone defined pnl is ignored) and
the first gross profit is strictly greater; every tie, in either
comparison, keeps the second-evaluated direction.  The first component of
the result is the quote matching the chosen label. -/
theorem choose_direction_rule (A : Type) (qa qb : Arbitrage) (pa pb : A)
    (va vb : PoolValues) (ra rb : Rat) :
    ((choose_direction qa qb pa pb va vb ra rb).2.1 = "PoolA" ↔
      (if qa.pnl.isSome && qb.pnl.isSome then qa.pnl.getD 0 > qb.pnl.getD 0
       else qa.gross_profit > qb.gross_profit)) ∧
    ((choose_direction qa qb pa pb va vb ra rb).2.1 = "PoolB" ↔
      ¬ (if qa.pnl.isSome && qb.pnl.isSome then qa.pnl.getD 0 > qb.pnl.getD 0
          else qa.gross_profit > qb.gross_profit)) ∧
    ((choose_direction qa qb pa pb va vb ra rb).2.1 = "PoolA" →
      (choose_direction qa qb pa pb va vb ra rb).1 = qa) ∧
    ((choose_direction qa qb pa pb va vb ra rb).2.1 = "PoolB" →
      (choose_direction qa qb pa pb va vb ra rb).1 = qb) := by
  have hAB : ("PoolA" : String) ≠ "PoolB" := by decide
  by_cases h1 : (qa.pnl.isSome && qb.pnl.isSome) = true
  · by_cases h2 : qa.pnl.getD 0 > qb.pnl.getD 0
    · simp [choose_direction, h1, h2]
    · simp [choose_direction, h1, h2, hAB.symm]
  · by_cases h3 : qa.gross_profit > qb.gross_profit
    · simp [choose_direction, h1, h3]
    · simp [choose_direction, h1, h3, hAB.symm]

/-- Shallow embedding of `calculate_price` (src/arbitrage.rs:100-108), with
f64 arithmetic as exact rational arithmetic. -/
def calculate_price (reserve0 reserve1 : Nat) (decimals0 decimals1 : Nat) : Rat :=
  if reserve0 = 0 then 0
  else ((reserve1 : Rat) / 10 ^ decimals1) / ((reserve0 : Rat) / 10 ^ decimals0)

/-- Shallow embedding of `spread_bps` (src/arbitrage.rs:110-113). -/
def spread_bps (price_a price_b : Rat) : Rat :=
  (price_b - price_a) / price_a * 10000

/-- Shallow embedding of the `meets_spread_threshold` binding
(src/main.rs:438): the signed spread value is compared against the
threshold cast to f64; no absolute value is taken. -/
def meets_spread_threshold (spread_bps_val : Rat) (spread_threshold_bps : Nat) : Bool :=
  decide ((spread_threshold_bps : Rat) ≤ spread_bps_val)

/-- Counterexample to claim C3 as stated: prices 100 and 98 give a spread of
-200 bps, whose absolute value 200 meets a 100 bps threshold, yet the
decision flag is false — a large negative spread does not pass the test. -/
theorem meets_spread_threshold_counterexample :
    spread_bps 100 98 = -200 ∧
    meets_spread_threshold (spread_bps 100 98) 100 = false ∧
    (100 : Rat) ≤ |spread_bps 100 98| := by
  have h : spread_bps 100 98 = -200 := by
    norm_num [spread_bps]
  refine ⟨h, ?_, ?_⟩
  · rw [h]
    norm_num [meets_spread_threshold]
  · rw [h]
    norm_num

/-- Claim C3 as amended: the decision flag compares the signed spread, with
no absolute value: for positive first price it is true iff
`threshold * price_a <= (price_b - price_a) * 10000`, and in particular any
negative spread (second price below the first) fails every positive
threshold. -/
theorem meets_spread_threshold_signed (price_a price_b : Rat) (t : Nat)
    (hpa : 0 < price_a) :
    (meets_spread_threshold (spread_bps price_a price_b) t = true ↔
      (t : Rat) * price_a ≤ (price_b - price_a) * 10000) ∧
    (price_b < price_a → 0 < t →
      meets_spread_threshold (spread_bps price_a price_b) t = false) := by
  have hiff : meets_spread_threshold (spread_bps price_a price_b) t = true ↔
      (t : Rat) * price_a ≤ (price_b - price_a) * 10000 := by
    rw [meets_spread_threshold, decide_eq_true_iff, spread_bps,
      div_mul_eq_mul_div, le_div_iff₀ hpa]
  refine ⟨hiff, fun hlt ht => ?_⟩
  rw [← Bool.not_eq_true, hiff]
  push_neg
  have h1 : (price_b - price_a) * 10000 < 0 :=
    mul_neg_of_neg_of_pos (by linarith) (by norm_num)
  have h2 : (1 : Rat) ≤ (t : Rat) := by exact_mod_cast ht
  nlinarith

/-- Witness for the amended C3 theorem at prices 100 and 98 with a 100 bps
threshold. -/
theorem meets_spread_threshold_signed_witness :
    (0 : Rat) < 100 ∧
    ((meets_spread_threshold (spread_bps 100 98) 100 = true ↔
      (100 : Rat) * 100 ≤ ((98 : Rat) - 100) * 10000) ∧
    ((98 : Rat) < 100 → 0 < 100 →
      meets_spread_threshold (spread_bps 100 98) 100 = false)) :=
  ⟨by norm_num, meets_spread_threshold_signed 100 98 100 (by norm_num)⟩

/-- The fields of an RPC simulation result that the dispatcher consumes
(`RpcSimulateTransactionResult`): the optional on-chain error and the
compute units consumed. -/
structure SimResult where
  err : Option String
  units_consumed : Option Nat
deriving DecidableEq

/-- What the execute-or-simulate block of `main` (src/main.rs:496-556)
records into the final report: the `tx.mode` string, the confirmation
signature, the stored simulation result and the captured error, plus two
instrumentation flags marking which network operation the block performed
(`rpc.send_and_confirm_transaction` and `simulate_transaction`
respectively). -/
structure DispatchOutcome where
  mode : String
  tx_signature : Option String
  simulate_result : Option SimResult
  tx_error : Option String
  sent_attempted : Bool
  simulated : Bool
deriving DecidableEq

/-- Shallow embedding of the dispatcher (src/main.rs:496-556 plus the
`tx.mode` field of the report, src/main.rs:708): the outcomes of the two
possible RPC calls are passed in as `Except` values; whichever branch runs
consumes the corresponding outcome and records it, and every branch falls
through to the report (no abort). -/
def execute_phase (simulate_only should_execute : Bool)
    (sim : Except String SimResult) (send : Except String String) : DispatchOutcome :=
  if simulate_only then
    match sim with
    | Except.ok r =>
        { mode := "simulate", tx_signature := none, simulate_result := some r,
          tx_error := r.err, sent_attempted := false, simulated := true }
    | Except.error e =>
        { mode := "simulate", tx_signature := none, simulate_result := none,
          tx_error := some e, sent_attempted := false, simulated := true }
  else if should_execute then
    match send with
    | Except.ok sig =>
        { mode := "send", tx_signature := some sig, simulate_result := none,
          tx_error := none, sent_attempted := true, simulated := false }
    | Except.error e =>
        { mode := "send", tx_signature := none, simulate_result := none,
          tx_error := some e, sent_attempted := true, simulated := false }
  else
    { mode := "skip", tx_signature := none, simulate_result := none,
      tx_error := none, sent_attempted := false, simulated := false }

/-- Claim C8: a network send is attempted iff `simulate_only` is false and
`should_execute` is true; with `simulate_only` set, simulation always runs
(whatever the decision) and the mode is "simulate"; a rejected simulation,
a failed simulation call and a failed send are each recorded in the
report's error field while the dispatcher still returns its outcome record
(the run completes; the decision inputs are not consulted in the simulate
branch and are left untouched). -/
theorem execute_phase_spec (simulate_only should_execute : Bool)
    (sim : Except String SimResult) (send : Except String String) :
    ((execute_phase simulate_only should_execute sim send).sent_attempted = true ↔
      (simulate_only = false ∧ should_execute = true)) ∧
    ((execute_phase simulate_only should_execute sim send).simulated = true ↔
      simulate_only = true) ∧
    ((execute_phase simulate_only should_execute sim send).mode =
      if simulate_only then "simulate" else if should_execute then "send" else "skip") ∧
    (simulate_only = true → ∀ r, sim = Except.ok r →
      (execute_phase simulate_only should_execute sim send).simulate_result = some r ∧
      (execute_phase simulate_only should_execute sim send).tx_error = r.err) ∧
    (simulate_only = true → ∀ e, sim = Except.error e →
      (execute_phase simulate_only should_execute sim send).tx_error = some e) ∧
    (simulate_only = false → should_execute = true → ∀ e, send = Except.error e →
      (execute_phase simulate_only should_execute sim send).tx_error = some e ∧
      (execute_phase simulate_only should_execute sim send).tx_signature = none) ∧
    (simulate_only = false → should_execute = true → ∀ s, send = Except.ok s →
      (execute_phase simulate_only should_execute sim send).tx_signature = some s) := by
  cases simulate_only <;> cases should_execute <;> cases sim <;> cases send <;>
    simp [execute_phase]

/-- The wrapped-SOL mint `spl_token::native_mint::ID`, base58. -/
def NATIVE_MINT : String := "So11111111111111111111111111111111111111112"

/-- The instruction kinds the transaction assemblers emit: compute-budget
limit and price, associated-token-account creation, a system transfer, a
native balance sync, and a CPMM swap with its amount and minimum-out. -/
inductive Instr where
  | computeUnitLimit (units : Nat)
  | computeUnitPrice (price : Nat)
  | createAta (payer wallet mint : String)
  | transfer (source dest : String) (lamports : Nat)
  | syncNative (account : String)
  | swap (source_ata dest_ata : String) (amount_in min_amount_out : Nat)
      (token0_to_token1 : Bool)
deriving DecidableEq

/-- Deterministic associated-token-address derivation
(`get_associated_token_address`), modelled as an injective pairing of the
owner and mint strings. -/
def ata (wallet mint : String) : String := wallet ++ "/" ++ mint

/-- Shallow embedding of the instruction assembly of `test_pool_swap`
(src/bin/ololo.rs:110-166).  The RPC existence probes for the two
associated token accounts are passed as flags; `create_ata_instruction`
always returns an instruction.  For a missing source account whose mint is
wrapped SOL, the funding transfer carries `amount_in + 2_039_280` lamports
(the code comment: amount plus token-account rent), followed by the
sync-native instruction; a missing destination account only gets the
creation instruction. -/
def test_pool_swap_instructions (payer source_mint dest_mint : String)
    (source_exists dest_exists : Bool) (amount_in expected_out : Nat)
    (swap_direction : Bool) : List Instr :=
  let user_source_ata := ata payer source_mint
  let user_dest_ata := ata payer dest_mint
  [Instr.computeUnitLimit 400000, Instr.computeUnitPrice 1000] ++
  (if source_exists then [] else
    [Instr.createAta payer payer source_mint] ++
    (if source_mint = NATIVE_MINT then
      [Instr.transfer payer user_source_ata (amount_in + 2039280),
       Instr.syncNative user_source_ata]
     else [])) ++
  (if dest_exists then [] else [Instr.createAta payer payer dest_mint]) ++
  [Instr.swap user_source_ata user_dest_ata amount_in (expected_out * 95 / 100)
    swap_direction]

/-- Shallow embedding of the instruction assembly of
`create_arbitrage_transaction` (src/transaction.rs:110-179): compute budget,
a creation instruction for each token account the RPC probe reports
missing, then the two swaps (leg 1 with minimum-out 0, leg 2 with the
u64::MAX use-everything sentinel and the real minimum-out).  No funding
transfer and no sync-native instruction appear for any mint. -/
def create_arbitrage_transaction_instructions (payer mint0 mint1 : String)
    (ata0_exists ata1_exists : Bool) (amount_in min_out priority_fee : Nat) :
    List Instr :=
  [Instr.computeUnitLimit 400000, Instr.computeUnitPrice priority_fee] ++
  (if ata0_exists then [] else [Instr.createAta payer payer mint0]) ++
  (if ata1_exists then [] else [Instr.createAta payer payer mint1]) ++
  [Instr.swap (ata payer mint0) (ata payer mint1) amount_in 0 true,
   Instr.swap (ata payer mint1) (ata payer mint0) (2 ^ 64 - 1) min_out false]

/-- Counterexample to claim C9 as stated: for a missing wrapped-SOL source
account with leg-1 input 1_000_000, the funding transfer the assembler in
ololo.rs emits carries 3_039_280 lamports (input plus 2_039_280 rent), and
no transfer of exactly the leg-1 input amount exists in the transaction;
moreover the assembler of transaction.rs emits no funding transfer and no
sync-native at all for a missing wrapped-SOL account. -/
theorem wsol_funding_counterexample :
    Instr.transfer "payer" (ata "payer" NATIVE_MINT) (1000000 + 2039280) ∈
      test_pool_swap_instructions "payer" NATIVE_MINT "MintD" false false
        1000000 500000 true ∧
    Instr.transfer "payer" (ata "payer" NATIVE_MINT) 1000000 ∉
      test_pool_swap_instructions "payer" NATIVE_MINT "MintD" false false
        1000000 500000 true ∧
    (create_arbitrage_transaction_instructions "payer" NATIVE_MINT "MintD"
        false false 1000000 0 5).countP
      (fun i => match i with
        | Instr.transfer _ _ _ => true
        | Instr.syncNative _ => true
        | _ => false) = 0 := by
  refine ⟨by decide, by decide, by rfl⟩

/-- Claim C9 as amended: in the assembler of ololo.rs, when the source
token account is missing and its mint is wrapped SOL, the consecutive block
creation, then funding transfer of `amount_in + 2_039_280` lamports (leg-1
input plus token-account rent, not the exact leg-1 input), then
sync-native, appears in the built instruction list, in that order; a
missing destination account contributes its creation instruction; and every
funding transfer to the source account in the list carries exactly
`amount_in + 2_039_280`. -/
theorem wsol_funding_spec (payer dest_mint : String) (dest_exists : Bool)
    (amount_in expected_out : Nat) (dir : Bool)
    (hsrc : NATIVE_MINT = NATIVE_MINT) :
    (∃ pre post,
      test_pool_swap_instructions payer NATIVE_MINT dest_mint false dest_exists
          amount_in expected_out dir =
        pre ++
          [Instr.createAta payer payer NATIVE_MINT,
           Instr.transfer payer (ata payer NATIVE_MINT) (amount_in + 2039280),
           Instr.syncNative (ata payer NATIVE_MINT)] ++ post) ∧
    (dest_exists = false →
      Instr.createAta payer payer dest_mint ∈
        test_pool_swap_instructions payer NATIVE_MINT dest_mint false dest_exists
          amount_in expected_out dir) ∧
    (∀ n, Instr.transfer payer (ata payer NATIVE_MINT) n ∈
        test_pool_swap_instructions payer NATIVE_MINT dest_mint false dest_exists
          amount_in expected_out dir →
      n = amount_in + 2039280) := by
  refine ⟨⟨[Instr.computeUnitLimit 400000, Instr.computeUnitPrice 1000],
    (if dest_exists then [] else [Instr.createAta payer payer dest_mint]) ++
      [Instr.swap (ata payer NATIVE_MINT) (ata payer dest_mint) amount_in
        (expected_out * 95 / 100) dir], ?_⟩, fun h => ?_, fun n hn => ?_⟩
  · simp [test_pool_swap_instructions]
  · cases dest_exists <;> simp_all [test_pool_swap_instructions]
  · cases dest_exists <;> simp_all [test_pool_swap_instructions]

/-- Witness for the amended C9 theorem at a concrete payer, destination
mint and amount. -/
theorem wsol_funding_spec_witness :
    NATIVE_MINT = NATIVE_MINT ∧
    ((∃ pre post,
      test_pool_swap_instructions "P" NATIVE_MINT "D" false false 7 100 true =
        pre ++
          [Instr.createAta "P" "P" NATIVE_MINT,
           Instr.transfer "P" (ata "P" NATIVE_MINT) (7 + 2039280),
           Instr.syncNative (ata "P" NATIVE_MINT)] ++ post) ∧
    (false = false →
      Instr.createAta "P" "P" "D" ∈
        test_pool_swap_instructions "P" NATIVE_MINT "D" false false 7 100 true) ∧
    (∀ n, Instr.transfer "P" (ata "P" NATIVE_MINT) n ∈
        test_pool_swap_instructions "P" NATIVE_MINT "D" false false 7 100 true →
      n = 7 + 2039280)) :=
  ⟨rfl, wsol_funding_spec "P" "D" false 7 100 true rfl⟩
